import Mathlib

/-!
Shallow embedding of `chain_to_chain.py` from the layer_zero_bridger
repository.

The single source file defines two async functions:

* `chain_to_chain` (lines 20-111): per-wallet task that derives the wallet
  address, computes the swap amounts, sleeps a random jittered startup
  delay second by second, polls the source-chain token balance every 30
  seconds until it is truthy, then submits one bridge transaction and logs
  two explorer links.
* `main` (lines 114-372): parses the `--mode` CLI flag against a
  twelve-entry mode table, builds one `chain_to_chain` coroutine per
  configured wallet for the selected route, awaits them with
  `asyncio.gather(..., return_exceptions=True)` and finally logs a
  FINISHED message.

External collaborators (`modules.bridger`, `modules.utils`,
`modules.tokens`, `modules.chains`, `config`, the `random`, `argparse` and
`asyncio` libraries) are not part of the source under verification; they
are modelled as oracles or, where a claim depends on their documented
contract, as definitions marked `Modelled from the spec`.

The per-wallet task is embedded as a function producing a list of
observable events (sleeps, balance queries, the bridge submission, log
records) together with a completion flag; the unbounded polling loop is
driven by an explicit fuel argument, so a run that never observes a truthy
balance is one that returns `false` as its completion flag for every fuel.
-/

/-- The four chains appearing in the mode table of `main`. -/
inductive Chain where
  | polygon
  | avalanche
  | bsc
  | fantom
deriving DecidableEq, Repr

/-- The two stablecoin tokens appearing in the mode table of `main`. -/
inductive TokenSym where
  | usdc
  | usdt
deriving DecidableEq, Repr

/-- The `transaction_info` dictionary built inside `chain_to_chain`
(source lines 84-98), with the pool identifiers kept as natural numbers
and the addresses kept as strings. -/
structure BridgeRequest where
  chain_id : Nat
  source_pool_id : Nat
  dest_pool_id : Nat
  refund_address : String
  amount_in : Nat
  amount_out_min : Nat
  lz_tx_obj : Nat × Nat × String
  toAddr : String
  data : String
deriving DecidableEq, Repr

/-- Observable events of one run of the per-wallet task. `computeAmounts`
records the awaited call of `get_correct_amount_and_min_amount`;
`sleep n` records one `asyncio.sleep(n)`; `balanceCheck b` records one
awaited `is_balance_updated` call together with its truthiness;
`submit r` records the single `send_token_chain_to_chain` call;
`logInfo` and `logSuccess` record logger output. -/
inductive Event where
  | computeAmounts (amount_to_swap min_amount : Nat)
  | logInfo (tag : String)
  | sleep (seconds : Nat)
  | balanceCheck (result : Bool)
  | submit (req : BridgeRequest)
  | logSuccess (tag : String)
deriving DecidableEq, Repr

/-- The explicit parameters of the python `chain_to_chain` function
(source lines 20-34). Opaque client and contract handles (`AsyncWeb3`,
`AsyncContract`, the stargate address) are omitted: the embedding never
inspects them. -/
structure ChainToChainArgs where
  wallet : String
  from_chain_name : String
  token : String
  to_chain_name : String
  destination_chain_id : Nat
  source_pool_id : Nat
  dest_pool_id : Nat
  from_chain_explorer : String
  gas : Nat
deriving DecidableEq, Repr

/-- Oracle bundle for the external calls made by `chain_to_chain`.
`addrOf` models `wallet_public_address`; `amount_to_swap` and
`min_amount` model the pair returned by
`get_correct_amount_and_min_amount`; `start_delay` models the value
returned by `random.randint(1, 200)`; `balance_at i` models the
truthiness of the value returned by the i-th `is_balance_updated` call;
`txn_hash` models the hash returned by `send_token_chain_to_chain`. -/
structure ExtCalls where
  addrOf : String → String
  amount_to_swap : Nat
  min_amount : Nat
  start_delay : Nat
  balance_at : Nat → Bool
  txn_hash : String

/-- The balance-wait loop of `chain_to_chain` (source lines 67-74):
each iteration sleeps 30 seconds, logs an informational message on every
third iteration (`logger_cntr % 3 == 0`), then queries the balance; the
loop ends when the query is truthy. The iteration counter `i` equals the
python `logger_cntr`. Returns the events of the loop together with `true`
when the loop terminated within `fuel` iterations. -/
def poll_loop (ext : ExtCalls) : Nat → Nat → List Event × Bool
  | 0, _ => ([], false)
  | fuel + 1, i =>
    let logEv : List Event := if i % 3 == 0 then [Event.logInfo "BALANCE"] else []
    let b := ext.balance_at i
    let iter : List Event := Event.sleep 30 :: (logEv ++ [Event.balanceCheck b])
    if b then (iter, true)
    else
      let rest := poll_loop ext fuel (i + 1)
      (iter ++ rest.1, rest.2)

/-- The `transaction_info` dictionary literal passed to
`send_token_chain_to_chain` (source lines 84-98), with `address` standing
for `wallet_public_address(wallet)`. -/
def bridge_request (a : ChainToChainArgs) (ext : ExtCalls) : BridgeRequest :=
  let address := ext.addrOf a.wallet
  { chain_id := a.destination_chain_id
    source_pool_id := a.source_pool_id
    dest_pool_id := a.dest_pool_id
    refund_address := address
    amount_in := ext.amount_to_swap
    amount_out_min := ext.min_amount
    lz_tx_obj := (0, 0, "0x0000000000000000000000000000000000000001")
    toAddr := address
    data := "0x" }

/-- Embedding of the python `chain_to_chain` body (source lines 53-111):
derive the address, await the amount computation, sleep the random
startup delay one second at a time (lines 60-65), run the balance-wait
loop, then build the `transaction_info` request, submit it once, and log
the two explorer links. The second component is `true` exactly when the
polling loop terminated within `fuel` iterations; otherwise the first
component is the partial trace produced before fuel ran out. -/
def chain_to_chain (a : ChainToChainArgs) (ext : ExtCalls) (fuel : Nat) :
    List Event × Bool :=
  let jitter : List Event := List.replicate ext.start_delay (Event.sleep 1)
  let poll := poll_loop ext fuel 0
  let pre : List Event :=
    Event.computeAmounts ext.amount_to_swap ext.min_amount ::
      Event.logInfo "START DELAY" :: (jitter ++ poll.1)
  if poll.2 then
    (pre ++
      [Event.logInfo "BRIDGING", Event.submit (bridge_request a ext),
       Event.logSuccess a.from_chain_name, Event.logSuccess "LAYERZEROSCAN"],
     true)
  else (pre, false)

/-- Number of events in a trace satisfying a predicate. -/
def countP (p : Event → Bool) (tr : List Event) : Nat := (tr.filter p).length

/-- Recognizer for balance query events. -/
def isCheck : Event → Bool
  | Event.balanceCheck _ => true
  | _ => false

/-- Recognizer for bridge submission events. -/
def isSubmit : Event → Bool
  | Event.submit _ => true
  | _ => false

/-- Recognizer for sleep events. -/
def isSleep : Event → Bool
  | Event.sleep _ => true
  | _ => false

/-- Recognizer for the amount computation event. -/
def isCompute : Event → Bool
  | Event.computeAmounts _ _ => true
  | _ => false

/-- Recognizer for success log events. -/
def isLogSuccess : Event → Bool
  | Event.logSuccess _ => true
  | _ => false

/-- Total seconds slept over a whole trace. -/
def totalSleep : List Event → Nat
  | [] => 0
  | Event.sleep n :: rest => n + totalSleep rest
  | _ :: rest => totalSleep rest

/-- Seconds slept strictly before the first submission event of a
trace (the whole trace when it contains no submission). -/
def sleepBeforeSubmit : List Event → Nat
  | [] => 0
  | Event.submit _ :: _ => 0
  | Event.sleep n :: rest => n + sleepBeforeSubmit rest
  | _ :: rest => sleepBeforeSubmit rest

/-- Scanner underlying `checksSleepSeparated`: the boolean state records
whether a 30-second sleep has been seen since the last balance query. -/
def checksSleepSeparatedAux : Bool → List Event → Bool
  | _, [] => true
  | s, Event.sleep n :: rest => checksSleepSeparatedAux (s || (n == 30)) rest
  | s, Event.balanceCheck _ :: rest => s && checksSleepSeparatedAux false rest
  | s, _ :: rest => checksSleepSeparatedAux s rest

/-- Holds when every balance query in the trace, including the first, is
preceded by a full 30-second sleep occurring after the previous balance
query (if any). -/
def checksSleepSeparated (tr : List Event) : Bool :=
  checksSleepSeparatedAux false tr

/-- Number of network calls visible in a trace: balance queries plus
bridge submissions. -/
def network_calls (tr : List Event) : Nat :=
  countP isCheck tr + countP isSubmit tr

/-- One branch of the `match mode` route table in `main` (source lines
150-367), recording for each selected route which chain or token each
argument of `chain_to_chain` is drawn from. Pool identifiers are recorded
as the token whose `stargate_pool_id` the source passes; chain-derived
arguments (`layer_zero_chain_id`, stargate contract and address, explorer,
gas) are recorded as the chain profile they are read from. -/
structure Route where
  from_chain : Chain
  token : TokenSym
  token_contract : Chain × TokenSym
  to_chain : Chain
  destination_chain_id : Chain
  source_pool_id : TokenSym
  dest_pool_id : TokenSym
  stargate_chain : Chain
  explorer : Chain
  gas : Chain
deriving DecidableEq, Repr

/-- The `mode_mapping` dictionary of `main` (source lines 119-132). -/
def mode_mapping : List (String × String) :=
  [("pf", "polygon-fantom"),
   ("pa", "polygon-avalanche"),
   ("pb", "polygon-bsc"),
   ("fp", "fantom-polygon"),
   ("fa", "fantom-avalanche"),
   ("fb", "fantom-bsc"),
   ("ap", "avalanche-polygon"),
   ("af", "avalanche-fantom"),
   ("ab", "avalanche-bsc"),
   ("bp", "bsc-polygon"),
   ("bf", "bsc-fantom"),
   ("ba", "bsc-avalanche")]

/-- The `match mode` statement of `main` (source lines 150-367),
transliterated arm by arm; an unmatched mode appends no task, modelled
as `none`. -/
def build_route : String → Option Route
  | "polygon-fantom" => some
    { from_chain := Chain.polygon, token := TokenSym.usdc,
      token_contract := (Chain.polygon, TokenSym.usdc),
      to_chain := Chain.fantom, destination_chain_id := Chain.fantom,
      source_pool_id := TokenSym.usdc, dest_pool_id := TokenSym.usdc,
      stargate_chain := Chain.polygon, explorer := Chain.polygon,
      gas := Chain.polygon }
  | "polygon-avalanche" => some
    { from_chain := Chain.polygon, token := TokenSym.usdc,
      token_contract := (Chain.polygon, TokenSym.usdc),
      to_chain := Chain.avalanche, destination_chain_id := Chain.avalanche,
      source_pool_id := TokenSym.usdc, dest_pool_id := TokenSym.usdc,
      stargate_chain := Chain.polygon, explorer := Chain.polygon,
      gas := Chain.polygon }
  | "polygon-bsc" => some
    { from_chain := Chain.polygon, token := TokenSym.usdc,
      token_contract := (Chain.polygon, TokenSym.usdc),
      to_chain := Chain.bsc, destination_chain_id := Chain.bsc,
      source_pool_id := TokenSym.usdc, dest_pool_id := TokenSym.usdt,
      stargate_chain := Chain.polygon, explorer := Chain.polygon,
      gas := Chain.polygon }
  | "fantom-polygon" => some
    { from_chain := Chain.fantom, token := TokenSym.usdc,
      token_contract := (Chain.fantom, TokenSym.usdc),
      to_chain := Chain.polygon, destination_chain_id := Chain.polygon,
      source_pool_id := TokenSym.usdc, dest_pool_id := TokenSym.usdc,
      stargate_chain := Chain.fantom, explorer := Chain.fantom,
      gas := Chain.fantom }
  | "fantom-avalanche" => some
    { from_chain := Chain.fantom, token := TokenSym.usdc,
      token_contract := (Chain.fantom, TokenSym.usdc),
      to_chain := Chain.avalanche, destination_chain_id := Chain.avalanche,
      source_pool_id := TokenSym.usdc, dest_pool_id := TokenSym.usdc,
      stargate_chain := Chain.fantom, explorer := Chain.fantom,
      gas := Chain.fantom }
  | "fantom-bsc" => some
    { from_chain := Chain.fantom, token := TokenSym.usdc,
      token_contract := (Chain.fantom, TokenSym.usdc),
      to_chain := Chain.bsc, destination_chain_id := Chain.bsc,
      source_pool_id := TokenSym.usdc, dest_pool_id := TokenSym.usdt,
      stargate_chain := Chain.fantom, explorer := Chain.fantom,
      gas := Chain.fantom }
  | "avalanche-polygon" => some
    { from_chain := Chain.avalanche, token := TokenSym.usdc,
      token_contract := (Chain.avalanche, TokenSym.usdc),
      to_chain := Chain.polygon, destination_chain_id := Chain.polygon,
      source_pool_id := TokenSym.usdc, dest_pool_id := TokenSym.usdc,
      stargate_chain := Chain.avalanche, explorer := Chain.avalanche,
      gas := Chain.avalanche }
  | "avalanche-fantom" => some
    { from_chain := Chain.avalanche, token := TokenSym.usdc,
      token_contract := (Chain.avalanche, TokenSym.usdc),
      to_chain := Chain.fantom, destination_chain_id := Chain.fantom,
      source_pool_id := TokenSym.usdc, dest_pool_id := TokenSym.usdc,
      stargate_chain := Chain.avalanche, explorer := Chain.avalanche,
      gas := Chain.avalanche }
  | "avalanche-bsc" => some
    { from_chain := Chain.avalanche, token := TokenSym.usdc,
      token_contract := (Chain.avalanche, TokenSym.usdc),
      to_chain := Chain.bsc, destination_chain_id := Chain.bsc,
      source_pool_id := TokenSym.usdc, dest_pool_id := TokenSym.usdt,
      stargate_chain := Chain.avalanche, explorer := Chain.avalanche,
      gas := Chain.avalanche }
  | "bsc-polygon" => some
    { from_chain := Chain.bsc, token := TokenSym.usdt,
      token_contract := (Chain.bsc, TokenSym.usdt),
      to_chain := Chain.polygon, destination_chain_id := Chain.polygon,
      source_pool_id := TokenSym.usdt, dest_pool_id := TokenSym.usdc,
      stargate_chain := Chain.bsc, explorer := Chain.bsc,
      gas := Chain.bsc }
  | "bsc-fantom" => some
    { from_chain := Chain.bsc, token := TokenSym.usdt,
      token_contract := (Chain.bsc, TokenSym.usdt),
      to_chain := Chain.fantom, destination_chain_id := Chain.fantom,
      source_pool_id := TokenSym.usdt, dest_pool_id := TokenSym.usdc,
      stargate_chain := Chain.bsc, explorer := Chain.bsc,
      gas := Chain.bsc }
  | "bsc-avalanche" => some
    { from_chain := Chain.bsc, token := TokenSym.usdt,
      token_contract := (Chain.bsc, TokenSym.usdt),
      to_chain := Chain.avalanche, destination_chain_id := Chain.avalanche,
      source_pool_id := TokenSym.usdt, dest_pool_id := TokenSym.usdc,
      stargate_chain := Chain.bsc, explorer := Chain.bsc,
      gas := Chain.bsc }
  | _ => none

/-- The route `main` builds for a two-letter mode code: the code is
translated through `mode_mapping` (source line 146) and the long name is
dispatched by the `match` statement. -/
def route_for_mode (code : String) : Option Route :=
  (List.lookup code mode_mapping).bind build_route

/-- The twelve two-letter mode codes accepted by the argument parser
(`choices=mode_mapping.keys()`, source line 137). -/
def mode_codes : List String := mode_mapping.map Prod.fst

/-- Internal consistency of one route, as the spec states it: source and
destination chains differ, every chain-derived argument is drawn from the
matching chain profile, the source pool identifier is the selected
token, and the destination pool identifier is the selected token except
on routes touching BSC, where routes from BSC carry USDT with a USDC
destination pool and routes to BSC carry USDC with a USDT destination
pool. -/
def route_consistent (r : Route) : Bool :=
  (r.from_chain != r.to_chain) &&
  (r.token_contract == (r.from_chain, r.token)) &&
  (r.destination_chain_id == r.to_chain) &&
  (r.stargate_chain == r.from_chain) &&
  (r.explorer == r.from_chain) &&
  (r.gas == r.from_chain) &&
  (r.source_pool_id == r.token) &&
  (if r.from_chain == Chain.bsc then
    (r.token == TokenSym.usdt) && (r.dest_pool_id == TokenSym.usdc)
   else if r.to_chain == Chain.bsc then
    (r.token == TokenSym.usdc) && (r.dest_pool_id == TokenSym.usdt)
   else r.dest_pool_id == r.token)

/-- Outcome of the argument-handling and task-construction phase of
`main` (source lines 115-149): what was printed to the standard streams,
the exit status when the process exited early, the per-wallet tasks that
were built (wallet paired with its route), and the network events
performed during this phase (always none: building a coroutine performs
no call). -/
structure CliRun where
  stdout : List String
  stderr : List String
  exit_code : Option Nat
  tasks : List (String × Route)
  events : List Event
deriving Repr

/-- Modelled from the spec: the argparse contract for a flag declared
with `choices` (source lines 134-139) — a supplied value outside the
enumeration makes `parse_args` print a usage error to standard error and
exit with status 2; an absent optional flag parses to `None`. The
`argparse` library itself is not part of this repository. -/
def parse_args_mode (arg : Option String) : Except String (Option String) :=
  match arg with
  | none => Except.ok none
  | some s =>
    if mode_codes.contains s then Except.ok (some s)
    else Except.error "usage: error: argument --mode: invalid choice"

/-- The argument-handling prefix of `main` (source lines 141-149 plus the
`match` route table): parse `--mode`; when it is absent, print the error
message and exit with status 2 (lines 142-144, a plain `print`, which
python sends to standard output); otherwise build one task per wallet
for the resolved route. No balance query or submission happens in this
phase. -/
def run_cli (wallets : List String) (arg : Option String) : CliRun :=
  match parse_args_mode arg with
  | Except.error usage =>
    { stdout := [], stderr := [usage], exit_code := some 2,
      tasks := [], events := [] }
  | Except.ok none =>
    { stdout := ["Error: the --mode argument is required"], stderr := [],
      exit_code := some 2, tasks := [], events := [] }
  | Except.ok (some code) =>
    let tasks := match route_for_mode code with
      | some r => wallets.map (fun w => (w, r))
      | none => []
    { stdout := [], stderr := [], exit_code := none,
      tasks := tasks, events := [] }

/-- One cooperative step of a python coroutine, as seen by the event
loop: either an ordinary suspension point or an uncaught exception. -/
inductive Step where
  | work
  | raiseErr (msg : String)
deriving DecidableEq, Repr

/-- A coroutine is its sequence of cooperative steps. -/
abbrev PyTask := List Step

/-- The terminal state of one coroutine run in isolation: `ok` when all
its steps finish, or its first uncaught exception. -/
def runTask : PyTask → Except String Unit
  | [] => Except.ok ()
  | Step.work :: rest => runTask rest
  | Step.raiseErr m :: _ => Except.error m

/-- Measure for the scheduler recursion: every pending coroutine costs
its remaining steps plus one. -/
def gatherMeasure (pending : List (Nat × PyTask)) : Nat :=
  (pending.map (fun p => p.2.length + 1)).sum

/-- Modelled from the spec: single-threaded cooperative round-robin
scheduling of `asyncio.gather(*tasks, return_exceptions=True)` (source
line 370) — the `asyncio` event loop is not part of this repository.
Pending coroutines are carried with their index; a coroutine whose steps
are exhausted settles as `ok`, one that raises settles with its
exception recorded in place of cancelling anything, and one that merely
suspends is put at the back of the queue. `acc` collects settled
results. -/
def gather_return_exceptions :
    List (Nat × PyTask) → List (Nat × Except String Unit) →
    List (Nat × Except String Unit)
  | [], acc => acc
  | (i, []) :: rest, acc =>
    gather_return_exceptions rest (acc ++ [(i, Except.ok ())])
  | (i, Step.raiseErr m :: _) :: rest, acc =>
    gather_return_exceptions rest (acc ++ [(i, Except.error m)])
  | (i, Step.work :: t) :: rest, acc =>
    gather_return_exceptions (rest ++ [(i, t)]) acc
termination_by pending _ => gatherMeasure pending
decreasing_by
  all_goals simp [gatherMeasure, List.map_append, List.sum_append]
  all_goals omega

/-- The tail of `main` (source lines 369-372): await the gathered wallet
tasks with `return_exceptions=True`, then unconditionally log the
`*** FINISHED ***` success message. Returns the settled per-task results
and whether the finished message was logged. -/
def main_gather (tasks : List PyTask) :
    List (Nat × Except String Unit) × Bool :=
  (gather_return_exceptions tasks.enum [], true)

/-- Modelled from the spec: `random.randint(1, 200)` (source line 58)
returns a uniformly random integer in the inclusive range 1 to 200; the
`random` library is not part of this repository. The embedding carries
the drawn value as the oracle field `start_delay`, constrained to this
set. -/
def start_delay_range : Finset Nat := Finset.Icc 1 200

/-- The step ordering asserted by the spec for one wallet task: first a
jitter sleep, then the balance polling, then the amount computation,
then the submission, then the success logging. Expressed over the first
occurrence index of each event kind; the third conjunct says no balance
query happens at or after the amount computation. -/
def spec_step_order (tr : List Event) : Bool :=
  decide (tr.findIdx isSleep < tr.findIdx isCheck) &&
  decide (tr.findIdx isCheck < tr.findIdx isCompute) &&
  (countP isCheck (tr.drop (tr.findIdx isCompute)) == 0) &&
  decide (tr.findIdx isCompute < tr.findIdx isSubmit) &&
  decide (tr.findIdx isSubmit < tr.findIdx isLogSuccess) &&
  decide (tr.findIdx isLogSuccess < tr.length)

/-- The step ordering the code actually implements: the amount
computation first, then the jitter sleep, then the balance polling, then
the submission, then the success logging. The fourth conjunct says no
balance query happens at or after the submission. -/
def impl_step_order (tr : List Event) : Bool :=
  decide (tr.findIdx isCompute < tr.findIdx isSleep) &&
  decide (tr.findIdx isSleep < tr.findIdx isCheck) &&
  decide (tr.findIdx isCheck < tr.length) &&
  (countP isCheck (tr.drop (tr.findIdx isSubmit)) == 0) &&
  decide (tr.findIdx isSubmit < tr.findIdx isLogSuccess) &&
  decide (tr.findIdx isLogSuccess < tr.length)

/-- Concrete argument sample: the polygon-fantom route for one wallet,
used by witnesses and counterexamples. -/
def sample_args : ChainToChainArgs :=
  { wallet := "wallet-one", from_chain_name := "polygon", token := "USDC",
    to_chain_name := "fantom", destination_chain_id := 112,
    source_pool_id := 1, dest_pool_id := 1,
    from_chain_explorer := "polygonscan.com", gas := 500000 }

/-- Concrete oracle sample whose balance query is truthy from the first
call on. -/
def sample_ext_ready : ExtCalls :=
  { addrOf := fun w => String.append "0x" w, amount_to_swap := 10000000,
    min_amount := 9950000, start_delay := 2,
    balance_at := fun _ => true, txn_hash := "c0de" }

/-- Concrete oracle sample whose balance query is falsy on the first two
calls and truthy on the third. -/
def sample_ext_third : ExtCalls :=
  { addrOf := fun w => String.append "0x" w, amount_to_swap := 10000000,
    min_amount := 9950000, start_delay := 1,
    balance_at := fun i => decide (2 <= i), txn_hash := "c0de" }

/-- Concrete oracle sample whose balance query is always falsy. -/
def sample_ext_never : ExtCalls :=
  { addrOf := fun w => String.append "0x" w, amount_to_swap := 10000000,
    min_amount := 9950000, start_delay := 3,
    balance_at := fun _ => false, txn_hash := "c0de" }

theorem countP_nil (p : Event → Bool) : countP p [] = 0 := rfl

theorem countP_cons (p : Event → Bool) (e : Event) (l : List Event) :
    countP p (e :: l) = (if p e then 1 else 0) + countP p l := by
  by_cases h : p e <;> simp [countP, List.filter_cons, h, Nat.add_comm]

theorem countP_append (p : Event → Bool) (l1 l2 : List Event) :
    countP p (l1 ++ l2) = countP p l1 + countP p l2 := by
  simp [countP, List.filter_append]

theorem countP_replicate (p : Event → Bool) (n : Nat) (e : Event) :
    countP p (List.replicate n e) = if p e then n else 0 := by
  by_cases h : p e <;> simp [countP, List.filter_replicate, h]

theorem countP_eq_zero (p : Event → Bool) (l : List Event)
    (h : ∀ e ∈ l, p e = false) : countP p l = 0 := by
  simp only [countP, List.length_eq_zero, List.filter_eq_nil_iff]
  intro e he
  simp [h e he]

theorem totalSleep_append (l1 l2 : List Event) :
    totalSleep (l1 ++ l2) = totalSleep l1 + totalSleep l2 := by
  induction l1 with
  | nil => simp [totalSleep]
  | cons e rest ih => cases e <;> simp [totalSleep, ih, Nat.add_assoc]

theorem totalSleep_replicate_one (n : Nat) :
    totalSleep (List.replicate n (Event.sleep 1)) = n := by
  induction n with
  | zero => rfl
  | succ k ih => simp [List.replicate_succ, totalSleep, ih]; omega

/-- Every event of one iteration of the balance-wait loop is a sleep, an
informational log, or a balance query. -/
theorem iter_mem (c : Bool) (b : Bool) :
    ∀ e ∈ Event.sleep 30 ::
        ((if c then [Event.logInfo "BALANCE"] else []) ++
          [Event.balanceCheck b]),
      (∃ n, e = Event.sleep n) ∨ (∃ t, e = Event.logInfo t) ∨
        (∃ r, e = Event.balanceCheck r) := by
  intro e he
  rcases List.mem_cons.mp he with rfl | he2
  · exact Or.inl ⟨30, rfl⟩
  rcases List.mem_append.mp he2 with h3 | h3
  · cases c
    · simp at h3
    · simp only [if_true] at h3
      rw [List.mem_singleton] at h3
      exact Or.inr (Or.inl ⟨"BALANCE", h3⟩)
  · rw [List.mem_singleton] at h3
    exact Or.inr (Or.inr ⟨b, h3⟩)

/-- Every event emitted by the balance-wait loop is a sleep, an
informational log, or a balance query. -/
theorem poll_loop_mem (ext : ExtCalls) :
    ∀ fuel i, ∀ e ∈ (poll_loop ext fuel i).1,
      (∃ n, e = Event.sleep n) ∨ (∃ t, e = Event.logInfo t) ∨
        (∃ b, e = Event.balanceCheck b) := by
  intro fuel
  induction fuel with
  | zero => intro i e he; simp [poll_loop] at he
  | succ f ih =>
    intro i e he
    simp only [poll_loop] at he
    by_cases hb : ext.balance_at i
    · simp only [hb, if_true] at he
      exact iter_mem (i % 3 == 0) true e he
    · simp only [hb, if_false, Bool.false_eq_true] at he
      rw [List.cons_append, List.mem_cons] at he
      rcases he with rfl | he
      · exact Or.inl ⟨30, rfl⟩
      rw [List.append_assoc, List.mem_append] at he
      rcases he with he | he
      · exact iter_mem (i % 3 == 0) false e
          (List.mem_cons_of_mem _ (List.mem_append_left _ he))
      · rcases List.mem_append.mp he with he2 | he2
        · exact iter_mem (i % 3 == 0) false e
            (List.mem_cons_of_mem _ (List.mem_append_right _ he2))
        · exact ih (i + 1) e he2

theorem poll_loop_no_submit (ext : ExtCalls) (fuel i : Nat) :
    countP isSubmit (poll_loop ext fuel i).1 = 0 := by
  apply countP_eq_zero
  intro e he
  rcases poll_loop_mem ext fuel i e he with ⟨n, rfl⟩ | ⟨t, rfl⟩ | ⟨b, rfl⟩ <;>
    rfl

theorem poll_loop_submit_not_mem (ext : ExtCalls) (fuel i : Nat) (req : BridgeRequest) :
    Event.submit req ∉ (poll_loop ext fuel i).1 := by
  intro hmem
  rcases poll_loop_mem ext fuel i _ hmem with ⟨n, h⟩ | ⟨t, h⟩ | ⟨b, h⟩ <;>
    cases h

/-- A completed balance-wait loop starts with its 30-second sleep. -/
theorem poll_loop_done_cons (ext : ExtCalls) (fuel i : Nat)
    (h : (poll_loop ext fuel i).2 = true) :
    ∃ t, (poll_loop ext fuel i).1 = Event.sleep 30 :: t := by
  cases fuel with
  | zero => simp [poll_loop] at h
  | succ f =>
    simp only [poll_loop]
    by_cases hb : ext.balance_at i <;> simp [hb]

/-- A completed balance-wait loop contains a truthy balance query. -/
theorem poll_loop_done_check (ext : ExtCalls) :
    ∀ fuel i, (poll_loop ext fuel i).2 = true →
      Event.balanceCheck true ∈ (poll_loop ext fuel i).1 := by
  intro fuel
  induction fuel with
  | zero => intro i h; simp [poll_loop] at h
  | succ f ih =>
    intro i h
    simp only [poll_loop] at h ⊢
    by_cases hb : ext.balance_at i
    · simp [hb]
    · simp only [hb, if_false, Bool.false_eq_true] at h ⊢
      exact List.mem_append_right _ (ih (i + 1) h)

theorem poll_loop_done_sleep (ext : ExtCalls) (fuel i : Nat)
    (h : (poll_loop ext fuel i).2 = true) :
    30 ≤ totalSleep (poll_loop ext fuel i).1 := by
  obtain ⟨t, ht⟩ := poll_loop_done_cons ext fuel i h
  rw [ht]
  simp [totalSleep]

/-- With a balance query that is never truthy, the balance-wait loop
never completes, whatever the fuel. -/
theorem poll_loop_never (ext : ExtCalls)
    (h : ∀ j, ext.balance_at j = false) :
    ∀ fuel i, (poll_loop ext fuel i).2 = false := by
  intro fuel
  induction fuel with
  | zero => intro i; simp [poll_loop]
  | succ f ih => intro i; simp [poll_loop, h i, ih (i + 1)]

theorem poll_loop_step_true (ext : ExtCalls) (f i : Nat)
    (h : ext.balance_at i = true) :
    poll_loop ext (f + 1) i =
      (Event.sleep 30 ::
        ((if i % 3 == 0 then [Event.logInfo "BALANCE"] else []) ++
          [Event.balanceCheck true]),
       true) := by
  simp [poll_loop, h]

theorem poll_loop_step_false (ext : ExtCalls) (f i : Nat)
    (h : ext.balance_at i = false) :
    poll_loop ext (f + 1) i =
      ((Event.sleep 30 ::
        ((if i % 3 == 0 then [Event.logInfo "BALANCE"] else []) ++
          [Event.balanceCheck false])) ++ (poll_loop ext f (i + 1)).1,
       (poll_loop ext f (i + 1)).2) := by
  simp [poll_loop, h]

/-- Structure of a completed run of the per-wallet task: the amount
computation, the start-delay log, the jitter sleeps, the loop events,
then the bridging log, the single submission and the two success logs. -/
theorem chain_to_chain_done (a : ChainToChainArgs) (ext : ExtCalls)
    (fuel : Nat) (h : (poll_loop ext fuel 0).2 = true) :
    chain_to_chain a ext fuel =
      (Event.computeAmounts ext.amount_to_swap ext.min_amount ::
        Event.logInfo "START DELAY" ::
        (List.replicate ext.start_delay (Event.sleep 1) ++
          ((poll_loop ext fuel 0).1 ++
            [Event.logInfo "BRIDGING",
             Event.submit (bridge_request a ext),
             Event.logSuccess a.from_chain_name,
             Event.logSuccess "LAYERZEROSCAN"])),
       true) := by
  simp [chain_to_chain, h]

/-- Structure of a run of the per-wallet task whose loop did not finish
within its fuel: the partial trace stops at the loop events and the
completion flag is false. -/
theorem chain_to_chain_not_done (a : ChainToChainArgs) (ext : ExtCalls)
    (fuel : Nat) (h : (poll_loop ext fuel 0).2 = false) :
    chain_to_chain a ext fuel =
      (Event.computeAmounts ext.amount_to_swap ext.min_amount ::
        Event.logInfo "START DELAY" ::
        (List.replicate ext.start_delay (Event.sleep 1) ++
          (poll_loop ext fuel 0).1),
       false) := by
  simp [chain_to_chain, h]

/-- C2: if every balance query for a wallet is falsy, the per-wallet
task never completes for any fuel bound, and its trace never contains a
bridge submission: the polling loop has no timeout, retry cap or
cancellation path. -/
theorem claim_C2 (a : ChainToChainArgs) (ext : ExtCalls)
    (h : ∀ j, ext.balance_at j = false) (fuel : Nat) :
    (chain_to_chain a ext fuel).2 = false ∧
      countP isSubmit (chain_to_chain a ext fuel).1 = 0 := by
  have hflag := poll_loop_never ext h fuel 0
  rw [chain_to_chain_not_done a ext fuel hflag]
  refine ⟨rfl, ?_⟩
  simp [countP_cons, countP_append, countP_replicate, isSubmit,
    poll_loop_no_submit]

theorem claim_C2_witness :
    (chain_to_chain sample_args sample_ext_never 5).2 = false ∧
      countP isSubmit (chain_to_chain sample_args sample_ext_never 5).1 = 0 :=
  claim_C2 sample_args sample_ext_never (fun _ => rfl) 5

/-- C9: when the drawn startup delay lies in the inclusive range 1 to
200 given by the `random.randint(1, 200)` contract, the trace of the
per-wallet task sleeps that delay one second at a time right after the
amount computation and its start-delay log, for a total of exactly
`start_delay` seconds of jitter. -/
theorem claim_C9 (a : ChainToChainArgs) (ext : ExtCalls) (fuel : Nat)
    (h : ext.start_delay ∈ start_delay_range) :
    ∃ rest, (chain_to_chain a ext fuel).1 =
        Event.computeAmounts ext.amount_to_swap ext.min_amount ::
          Event.logInfo "START DELAY" ::
          (List.replicate ext.start_delay (Event.sleep 1) ++ rest) ∧
      totalSleep (List.replicate ext.start_delay (Event.sleep 1)) =
        ext.start_delay := by
  cases hflag : (poll_loop ext fuel 0).2 with
  | false =>
    rw [chain_to_chain_not_done a ext fuel hflag]
    exact ⟨_, rfl, totalSleep_replicate_one _⟩
  | true =>
    rw [chain_to_chain_done a ext fuel hflag]
    exact ⟨_, rfl, totalSleep_replicate_one _⟩

theorem claim_C9_witness :
    sample_ext_ready.start_delay ∈ start_delay_range ∧
      ∃ rest, (chain_to_chain sample_args sample_ext_ready 1).1 =
          Event.computeAmounts sample_ext_ready.amount_to_swap
              sample_ext_ready.min_amount ::
            Event.logInfo "START DELAY" ::
            (List.replicate sample_ext_ready.start_delay (Event.sleep 1) ++
              rest) ∧
        totalSleep
            (List.replicate sample_ext_ready.start_delay (Event.sleep 1)) =
          sample_ext_ready.start_delay :=
  ⟨by decide, claim_C9 sample_args sample_ext_ready 1 (by decide)⟩

theorem checksSleepSeparatedAux_no_check (l : List Event)
    (h : ∀ e ∈ l, isCheck e = false) :
    ∀ s, checksSleepSeparatedAux s l = true := by
  induction l with
  | nil => intro s; rfl
  | cons e rest ih =>
    intro s
    have he := h e (List.mem_cons_self e rest)
    have hrest : ∀ x ∈ rest, isCheck x = false :=
      fun x hx => h x (List.mem_cons_of_mem e hx)
    cases e with
    | balanceCheck b => simp [isCheck] at he
    | sleep n => exact ih hrest _
    | computeAmounts x y => exact ih hrest _
    | logInfo t => exact ih hrest _
    | submit r => exact ih hrest _
    | logSuccess t => exact ih hrest _

/-- Scanning the jitter sleeps changes nothing: a one-second sleep is
not a 30-second sleep. -/
theorem checksSleepSeparatedAux_jitter (n : Nat) (l : List Event) (s : Bool) :
    checksSleepSeparatedAux s (List.replicate n (Event.sleep 1) ++ l) =
      checksSleepSeparatedAux s l := by
  induction n generalizing s with
  | zero => rfl
  | succ k ih =>
    rw [List.replicate_succ, List.cons_append]
    show checksSleepSeparatedAux (s || (1 == 30)) _ = _
    rw [show ((1 : Nat) == 30) = false from rfl, Bool.or_false]
    exact ih s

/-- Scanning the loop events followed by a check-free tail always
accepts: each iteration sleeps 30 seconds before its balance query. -/
theorem checksSleepSeparatedAux_poll (ext : ExtCalls) :
    ∀ fuel i s l2, (∀ e ∈ l2, isCheck e = false) →
      checksSleepSeparatedAux s ((poll_loop ext fuel i).1 ++ l2) = true := by
  intro fuel
  induction fuel with
  | zero =>
    intro i s l2 h2
    simp only [poll_loop, List.nil_append]
    exact checksSleepSeparatedAux_no_check l2 h2 s
  | succ f ih =>
    intro i s l2 h2
    by_cases hb : ext.balance_at i
    · rw [poll_loop_step_true ext f i hb]
      by_cases hm : i % 3 == 0
      · simp only [hm, if_true, List.cons_append, List.append_assoc,
          List.singleton_append]
        show (checksSleepSeparatedAux ((s || (30 == 30))) _) = true
        rw [show ((30 : Nat) == 30) = true from rfl, Bool.or_true]
        show (true && checksSleepSeparatedAux false l2) = true
        rw [Bool.true_and]
        exact checksSleepSeparatedAux_no_check l2 h2 false
      · simp only [hm, if_false, List.cons_append, List.nil_append,
          List.singleton_append]
        show (checksSleepSeparatedAux ((s || (30 == 30))) _) = true
        rw [show ((30 : Nat) == 30) = true from rfl, Bool.or_true]
        show (true && checksSleepSeparatedAux false l2) = true
        rw [Bool.true_and]
        exact checksSleepSeparatedAux_no_check l2 h2 false
    · rw [poll_loop_step_false ext f i (by simpa using hb)]
      by_cases hm : i % 3 == 0
      · simp only [hm, if_true, List.cons_append, List.append_assoc,
          List.singleton_append]
        show (checksSleepSeparatedAux ((s || (30 == 30))) _) = true
        rw [show ((30 : Nat) == 30) = true from rfl, Bool.or_true]
        show (true && checksSleepSeparatedAux false _) = true
        rw [Bool.true_and]
        exact ih (i + 1) false l2 h2
      · simp only [hm, if_false, List.cons_append, List.nil_append,
          List.singleton_append]
        show (checksSleepSeparatedAux ((s || (30 == 30))) _) = true
        rw [show ((30 : Nat) == 30) = true from rfl, Bool.or_true]
        show (true && checksSleepSeparatedAux false _) = true
        rw [Bool.true_and]
        exact ih (i + 1) false l2 h2

theorem sleepBeforeSubmit_append (l1 l2 : List Event)
    (h : ∀ e ∈ l1, isSubmit e = false) :
    sleepBeforeSubmit (l1 ++ l2) = totalSleep l1 + sleepBeforeSubmit l2 := by
  induction l1 with
  | nil => simp [totalSleep]
  | cons e rest ih =>
    have hrest : ∀ x ∈ rest, isSubmit x = false :=
      fun x hx => h x (List.mem_cons_of_mem e hx)
    cases e with
    | submit r =>
      have := h _ (List.mem_cons_self _ rest)
      simp [isSubmit] at this
    | sleep n =>
      simp [sleepBeforeSubmit, totalSleep, ih hrest, Nat.add_assoc]
    | computeAmounts x y => simp [sleepBeforeSubmit, totalSleep, ih hrest]
    | logInfo t => simp [sleepBeforeSubmit, totalSleep, ih hrest]
    | balanceCheck b => simp [sleepBeforeSubmit, totalSleep, ih hrest]
    | logSuccess t => simp [sleepBeforeSubmit, totalSleep, ih hrest]

/-- No event of the jitter phase or of the balance-wait loop is a
submission. -/
theorem jitter_poll_no_submit (ext : ExtCalls) (fuel i : Nat) :
    ∀ e ∈ List.replicate ext.start_delay (Event.sleep 1) ++
        (poll_loop ext fuel i).1, isSubmit e = false := by
  intro e he
  rcases List.mem_append.mp he with h1 | h1
  · obtain ⟨-, rfl⟩ := List.mem_replicate.mp h1
    rfl
  · rcases poll_loop_mem ext fuel i e h1 with ⟨n, rfl⟩ | ⟨t, rfl⟩ | ⟨b, rfl⟩ <;>
      rfl

/-- C10: in every run of the per-wallet task, every balance query
(including the first) has a 30-second sleep since the previous query,
and a completed run sleeps at least `start_delay + 30` seconds before
its single submission: even a wallet whose balance is truthy at the
first query waits 30 seconds after the jitter. -/
theorem claim_C10 (a : ChainToChainArgs) (ext : ExtCalls) (fuel : Nat) :
    checksSleepSeparated (chain_to_chain a ext fuel).1 = true ∧
      ((chain_to_chain a ext fuel).2 = true →
        ext.start_delay + 30 ≤
          sleepBeforeSubmit (chain_to_chain a ext fuel).1) := by
  constructor
  · cases hflag : (poll_loop ext fuel 0).2 with
    | false =>
      rw [chain_to_chain_not_done a ext fuel hflag]
      show checksSleepSeparatedAux false
        (List.replicate ext.start_delay (Event.sleep 1) ++
          (poll_loop ext fuel 0).1) = true
      rw [checksSleepSeparatedAux_jitter]
      rw [show (poll_loop ext fuel 0).1 =
        (poll_loop ext fuel 0).1 ++ [] from (List.append_nil _).symm]
      exact checksSleepSeparatedAux_poll ext fuel 0 false []
        (by intro e he; cases he)
    | true =>
      rw [chain_to_chain_done a ext fuel hflag]
      show checksSleepSeparatedAux false
        (List.replicate ext.start_delay (Event.sleep 1) ++
          ((poll_loop ext fuel 0).1 ++
            [Event.logInfo "BRIDGING", Event.submit (bridge_request a ext),
             Event.logSuccess a.from_chain_name,
             Event.logSuccess "LAYERZEROSCAN"])) = true
      rw [checksSleepSeparatedAux_jitter]
      refine checksSleepSeparatedAux_poll ext fuel 0 false _ ?_
      intro e he
      simp only [List.mem_cons, List.mem_singleton, List.not_mem_nil,
        or_false] at he
      rcases he with rfl | rfl | rfl | rfl <;> rfl
  · intro hdone
    have hflag : (poll_loop ext fuel 0).2 = true := by
      by_contra hne
      rw [chain_to_chain_not_done a ext fuel (by simpa using hne)] at hdone
      cases hdone
    rw [chain_to_chain_done a ext fuel hflag]
    show ext.start_delay + 30 ≤ sleepBeforeSubmit
      (List.replicate ext.start_delay (Event.sleep 1) ++
        ((poll_loop ext fuel 0).1 ++
          [Event.logInfo "BRIDGING", Event.submit (bridge_request a ext),
           Event.logSuccess a.from_chain_name,
           Event.logSuccess "LAYERZEROSCAN"]))
    rw [← List.append_assoc]
    rw [sleepBeforeSubmit_append _ _ (jitter_poll_no_submit ext fuel 0)]
    rw [totalSleep_append, totalSleep_replicate_one]
    have hsuf : sleepBeforeSubmit
        [Event.logInfo "BRIDGING", Event.submit (bridge_request a ext),
         Event.logSuccess a.from_chain_name,
         Event.logSuccess "LAYERZEROSCAN"] = 0 := rfl
    rw [hsuf]
    have h30 := poll_loop_done_sleep ext fuel 0 hflag
    omega

theorem claim_C10_witness :
    checksSleepSeparated (chain_to_chain sample_args sample_ext_ready 1).1 =
        true ∧
      sample_ext_ready.start_delay + 30 ≤
        sleepBeforeSubmit (chain_to_chain sample_args sample_ext_ready 1).1 :=
  ⟨(claim_C10 sample_args sample_ext_ready 1).1,
   (claim_C10 sample_args sample_ext_ready 1).2 rfl⟩

/-- C7: in every run of the per-wallet task, at most one submission
happens (exactly one when the run completes, none otherwise), and any
submitted request is the one `transaction_info` built for this wallet,
whose refund address and destination address are both the address
derived from the wallet credential. Immutability holds by construction:
the request is a value assembled once at the submission site. -/
theorem claim_C7 (a : ChainToChainArgs) (ext : ExtCalls) (fuel : Nat) :
    countP isSubmit (chain_to_chain a ext fuel).1 ≤ 1 ∧
      (∀ req : BridgeRequest,
        Event.submit req ∈ (chain_to_chain a ext fuel).1 →
          req = bridge_request a ext ∧
          req.refund_address = ext.addrOf a.wallet ∧
          req.toAddr = ext.addrOf a.wallet) := by
  cases hflag : (poll_loop ext fuel 0).2 with
  | false =>
    rw [chain_to_chain_not_done a ext fuel hflag]
    constructor
    · have hz : countP isSubmit
          (Event.computeAmounts ext.amount_to_swap ext.min_amount ::
            Event.logInfo "START DELAY" ::
            (List.replicate ext.start_delay (Event.sleep 1) ++
              (poll_loop ext fuel 0).1)) = 0 := by
        simp [countP_cons, countP_append, countP_replicate, isSubmit,
          poll_loop_no_submit]
      rw [hz]
      exact Nat.zero_le 1
    · intro req hreq
      simp only [List.mem_cons] at hreq
      rcases hreq with h | h | h
      · cases h
      · cases h
      · exact absurd (jitter_poll_no_submit ext fuel 0 _ h) (by simp [isSubmit])
  | true =>
    rw [chain_to_chain_done a ext fuel hflag]
    constructor
    · have hone : countP isSubmit
          (Event.computeAmounts ext.amount_to_swap ext.min_amount ::
            Event.logInfo "START DELAY" ::
            (List.replicate ext.start_delay (Event.sleep 1) ++
              ((poll_loop ext fuel 0).1 ++
                [Event.logInfo "BRIDGING",
                 Event.submit (bridge_request a ext),
                 Event.logSuccess a.from_chain_name,
                 Event.logSuccess "LAYERZEROSCAN"]))) = 1 := by
        simp [countP_cons, countP_append, countP_replicate, countP_nil,
          isSubmit, poll_loop_no_submit]
      rw [hone]
    · intro req hreq
      simp only [List.mem_cons, List.mem_append] at hreq
      rcases hreq with h | h | h
      · cases h
      · cases h
      rcases h with h | h | h
      · obtain ⟨-, h⟩ := List.mem_replicate.mp h
        cases h
      · exact absurd h (poll_loop_submit_not_mem ext fuel 0 req)
      · simp only [List.mem_cons, List.mem_singleton, List.not_mem_nil,
          or_false] at h
        rcases h with h | h | h | h
        · cases h
        · cases h with
          | refl => exact ⟨rfl, rfl, rfl⟩
        · cases h
        · cases h

theorem claim_C7_witness :
    countP isSubmit (chain_to_chain sample_args sample_ext_ready 1).1 ≤ 1 ∧
      ((bridge_request sample_args sample_ext_ready).refund_address =
          sample_ext_ready.addrOf sample_args.wallet ∧
        (bridge_request sample_args sample_ext_ready).toAddr =
          sample_ext_ready.addrOf sample_args.wallet) :=
  ⟨(claim_C7 sample_args sample_ext_ready 1).1,
   ((claim_C7 sample_args sample_ext_ready 1).2
      (bridge_request sample_args sample_ext_ready) (by decide)).2⟩

/-- With a falsy first and second query and a truthy third, the loop
runs exactly three iterations and completes. -/
theorem poll_loop_three (ext : ExtCalls) (k : Nat)
    (h0 : ext.balance_at 0 = false) (h1 : ext.balance_at 1 = false)
    (h2 : ext.balance_at 2 = true) :
    poll_loop ext (k + 1 + 1 + 1) 0 =
      ((Event.sleep 30 ::
          ([Event.logInfo "BALANCE"] ++ [Event.balanceCheck false])) ++
        ((Event.sleep 30 :: ([] ++ [Event.balanceCheck false])) ++
          (Event.sleep 30 :: ([] ++ [Event.balanceCheck true]))),
       true) := by
  rw [poll_loop_step_false ext (k + 1 + 1) 0 h0]
  rw [show (0 + 1 : Nat) = 1 from rfl]
  rw [poll_loop_step_false ext (k + 1) 1 h1]
  rw [show (1 + 1 : Nat) = 2 from rfl]
  rw [poll_loop_step_true ext k 2 h2]
  simp

/-- C1: when the balance query is falsy on the first two calls and
truthy on the third, any run given at least three loop iterations of
fuel completes, its trace contains exactly three balance queries, and
the bridge submission happens exactly once. -/
theorem claim_C1 (a : ChainToChainArgs) (ext : ExtCalls) (fuel : Nat)
    (h0 : ext.balance_at 0 = false) (h1 : ext.balance_at 1 = false)
    (h2 : ext.balance_at 2 = true) (hf : 3 ≤ fuel) :
    (chain_to_chain a ext fuel).2 = true ∧
      countP isCheck (chain_to_chain a ext fuel).1 = 3 ∧
      countP isSubmit (chain_to_chain a ext fuel).1 = 1 := by
  obtain ⟨k, rfl⟩ : ∃ k, fuel = k + 1 + 1 + 1 := ⟨fuel - 3, by omega⟩
  have hpoll := poll_loop_three ext k h0 h1 h2
  have hflag : (poll_loop ext (k + 1 + 1 + 1) 0).2 = true := by
    rw [hpoll]
  rw [chain_to_chain_done a ext (k + 1 + 1 + 1) hflag]
  refine ⟨rfl, ?_, ?_⟩
  · rw [show (Event.computeAmounts ext.amount_to_swap ext.min_amount ::
      Event.logInfo "START DELAY" ::
      (List.replicate ext.start_delay (Event.sleep 1) ++
        ((poll_loop ext (k + 1 + 1 + 1) 0).1 ++
          [Event.logInfo "BRIDGING", Event.submit (bridge_request a ext),
           Event.logSuccess a.from_chain_name,
           Event.logSuccess "LAYERZEROSCAN"])), true).1 =
      Event.computeAmounts ext.amount_to_swap ext.min_amount ::
      Event.logInfo "START DELAY" ::
      (List.replicate ext.start_delay (Event.sleep 1) ++
        ((poll_loop ext (k + 1 + 1 + 1) 0).1 ++
          [Event.logInfo "BRIDGING", Event.submit (bridge_request a ext),
           Event.logSuccess a.from_chain_name,
           Event.logSuccess "LAYERZEROSCAN"])) from rfl]
    rw [hpoll]
    simp [countP_cons, countP_append, countP_replicate, countP_nil, isCheck]
  · rw [show (Event.computeAmounts ext.amount_to_swap ext.min_amount ::
      Event.logInfo "START DELAY" ::
      (List.replicate ext.start_delay (Event.sleep 1) ++
        ((poll_loop ext (k + 1 + 1 + 1) 0).1 ++
          [Event.logInfo "BRIDGING", Event.submit (bridge_request a ext),
           Event.logSuccess a.from_chain_name,
           Event.logSuccess "LAYERZEROSCAN"])), true).1 =
      Event.computeAmounts ext.amount_to_swap ext.min_amount ::
      Event.logInfo "START DELAY" ::
      (List.replicate ext.start_delay (Event.sleep 1) ++
        ((poll_loop ext (k + 1 + 1 + 1) 0).1 ++
          [Event.logInfo "BRIDGING", Event.submit (bridge_request a ext),
           Event.logSuccess a.from_chain_name,
           Event.logSuccess "LAYERZEROSCAN"])) from rfl]
    rw [hpoll]
    simp [countP_cons, countP_append, countP_replicate, countP_nil, isSubmit]

theorem claim_C1_witness :
    (chain_to_chain sample_args sample_ext_third 3).2 = true ∧
      countP isCheck (chain_to_chain sample_args sample_ext_third 3).1 = 3 ∧
      countP isSubmit (chain_to_chain sample_args sample_ext_third 3).1 = 1 :=
  claim_C1 sample_args sample_ext_third 3 rfl rfl rfl (by decide)

theorem findIdx_append_of_none (p : Event → Bool) (l1 l2 : List Event)
    (h : ∀ e ∈ l1, p e = false) :
    (l1 ++ l2).findIdx p = l1.length + l2.findIdx p := by
  rw [List.findIdx_append, List.findIdx_eq_length_of_false h]
  simp [Nat.add_comm]

/-- C6 counterexample run: on the ready-balance sample the task
completes, yet the step order asserted by the spec (jitter sleep, then
polling, then amount computation, then submission, then logging) does
not hold of the produced trace: the amount computation precedes the
jitter sleep. -/
theorem claim_C6_counterexample :
    (chain_to_chain sample_args sample_ext_ready 1).2 = true ∧
      spec_step_order (chain_to_chain sample_args sample_ext_ready 1).1 =
        false := by
  constructor
  · rfl
  · decide


/-- Any trace shaped like a completed per-wallet run — amount
computation, start-delay log, a sleep-headed middle section whose part
before the bridging log contains a balance query and no submission or
success log — satisfies the implemented step ordering. -/
theorem impl_step_order_build (amt mn : Nat) (J M1 : List Event)
    (req : BridgeRequest) (t1 t2 : String) (s : Nat) (r3 : List Event)
    (hhead : J ++ (M1 ++ [Event.logInfo "BRIDGING", Event.submit req,
        Event.logSuccess t1, Event.logSuccess t2]) = Event.sleep s :: r3)
    (b : Bool) (hchk : Event.balanceCheck b ∈ M1)
    (hnosub : ∀ e ∈ Event.computeAmounts amt mn ::
        Event.logInfo "START DELAY" ::
        (J ++ (M1 ++ [Event.logInfo "BRIDGING"])), isSubmit e = false)
    (hnols : ∀ e ∈ Event.computeAmounts amt mn ::
        Event.logInfo "START DELAY" ::
        (J ++ (M1 ++ [Event.logInfo "BRIDGING"])), isLogSuccess e = false) :
    impl_step_order (Event.computeAmounts amt mn ::
      Event.logInfo "START DELAY" ::
      (J ++ (M1 ++ [Event.logInfo "BRIDGING", Event.submit req,
        Event.logSuccess t1, Event.logSuccess t2]))) = true := by
  have hsplit : Event.computeAmounts amt mn ::
      Event.logInfo "START DELAY" ::
      (J ++ (M1 ++ [Event.logInfo "BRIDGING", Event.submit req,
        Event.logSuccess t1, Event.logSuccess t2])) =
      (Event.computeAmounts amt mn :: Event.logInfo "START DELAY" ::
        (J ++ (M1 ++ [Event.logInfo "BRIDGING"]))) ++
        (Event.submit req ::
          [Event.logSuccess t1, Event.logSuccess t2]) := by
    simp [List.append_assoc]
  have f_comp : (Event.computeAmounts amt mn ::
      Event.logInfo "START DELAY" ::
      (J ++ (M1 ++ [Event.logInfo "BRIDGING", Event.submit req,
        Event.logSuccess t1, Event.logSuccess t2]))).findIdx isCompute
      = 0 := by
    simp [List.findIdx_cons, isCompute]
  have f_sleep : (Event.computeAmounts amt mn ::
      Event.logInfo "START DELAY" ::
      (J ++ (M1 ++ [Event.logInfo "BRIDGING", Event.submit req,
        Event.logSuccess t1, Event.logSuccess t2]))).findIdx isSleep
      = 2 := by
    rw [hhead]
    simp [List.findIdx_cons, isSleep, isCompute]
  have f_check_eq : (Event.computeAmounts amt mn ::
      Event.logInfo "START DELAY" ::
      (J ++ (M1 ++ [Event.logInfo "BRIDGING", Event.submit req,
        Event.logSuccess t1, Event.logSuccess t2]))).findIdx isCheck
      = r3.findIdx isCheck + 1 + 1 + 1 := by
    rw [hhead]
    simp [List.findIdx_cons, isCheck, isSleep]
  have f_check_ub : (Event.computeAmounts amt mn ::
      Event.logInfo "START DELAY" ::
      (J ++ (M1 ++ [Event.logInfo "BRIDGING", Event.submit req,
        Event.logSuccess t1, Event.logSuccess t2]))).findIdx isCheck
      < (Event.computeAmounts amt mn :: Event.logInfo "START DELAY" ::
        (J ++ (M1 ++ [Event.logInfo "BRIDGING", Event.submit req,
          Event.logSuccess t1, Event.logSuccess t2]))).length := by
    refine List.findIdx_lt_length.mpr ⟨Event.balanceCheck b, ?_, rfl⟩
    exact List.mem_cons_of_mem _ (List.mem_cons_of_mem _
      (List.mem_append_right _ (List.mem_append_left _ hchk)))
  have f_sub : (Event.computeAmounts amt mn ::
      Event.logInfo "START DELAY" ::
      (J ++ (M1 ++ [Event.logInfo "BRIDGING", Event.submit req,
        Event.logSuccess t1, Event.logSuccess t2]))).findIdx isSubmit
      = (Event.computeAmounts amt mn :: Event.logInfo "START DELAY" ::
        (J ++ (M1 ++ [Event.logInfo "BRIDGING"]))).length := by
    rw [hsplit, findIdx_append_of_none _ _ _ hnosub]
    simp [List.findIdx_cons, isSubmit]
  have f_drop : countP isCheck
      ((Event.computeAmounts amt mn :: Event.logInfo "START DELAY" ::
        (J ++ (M1 ++ [Event.logInfo "BRIDGING", Event.submit req,
          Event.logSuccess t1, Event.logSuccess t2]))).drop
        ((Event.computeAmounts amt mn :: Event.logInfo "START DELAY" ::
          (J ++ (M1 ++ [Event.logInfo "BRIDGING", Event.submit req,
            Event.logSuccess t1,
            Event.logSuccess t2]))).findIdx isSubmit)) = 0 := by
    rw [f_sub, hsplit, List.drop_left]
    rfl
  have f_log : (Event.computeAmounts amt mn ::
      Event.logInfo "START DELAY" ::
      (J ++ (M1 ++ [Event.logInfo "BRIDGING", Event.submit req,
        Event.logSuccess t1, Event.logSuccess t2]))).findIdx isLogSuccess
      = (Event.computeAmounts amt mn :: Event.logInfo "START DELAY" ::
        (J ++ (M1 ++ [Event.logInfo "BRIDGING"]))).length + 1 := by
    rw [hsplit, findIdx_append_of_none _ _ _ hnols]
    simp [List.findIdx_cons, isLogSuccess, isSubmit]
  have f_len : (Event.computeAmounts amt mn ::
      Event.logInfo "START DELAY" ::
      (J ++ (M1 ++ [Event.logInfo "BRIDGING", Event.submit req,
        Event.logSuccess t1, Event.logSuccess t2]))).length
      = (Event.computeAmounts amt mn :: Event.logInfo "START DELAY" ::
        (J ++ (M1 ++ [Event.logInfo "BRIDGING"]))).length + 3 := by
    rw [hsplit]
    simp
    omega
  simp only [impl_step_order, Bool.and_eq_true, decide_eq_true_eq,
    beq_iff_eq]
  omega

/-- C6 amended: every completed run of the per-wallet task performs its
steps in the order amount computation, then jitter sleep, then balance
polling, then the single submission, then success logging — the amount
computation comes first, before the startup delay, not between the
polling and the submission as the spec orders the steps. -/
theorem claim_C6_amended (a : ChainToChainArgs) (ext : ExtCalls) (fuel : Nat)
    (hdone : (chain_to_chain a ext fuel).2 = true) :
    impl_step_order (chain_to_chain a ext fuel).1 = true := by
  have hflag : (poll_loop ext fuel 0).2 = true := by
    by_contra hne
    rw [chain_to_chain_not_done a ext fuel (by simpa using hne)] at hdone
    cases hdone
  rw [chain_to_chain_done a ext fuel hflag]
  obtain ⟨t, ht⟩ := poll_loop_done_cons ext fuel 0 hflag
  have hhead : ∃ s rest3,
      List.replicate ext.start_delay (Event.sleep 1) ++
        ((poll_loop ext fuel 0).1 ++
          [Event.logInfo "BRIDGING", Event.submit (bridge_request a ext),
           Event.logSuccess a.from_chain_name,
           Event.logSuccess "LAYERZEROSCAN"]) =
        Event.sleep s :: rest3 := by
    cases hd : ext.start_delay with
    | zero =>
      rw [ht]
      exact ⟨30, _, rfl⟩
    | succ d =>
      rw [List.replicate_succ]
      exact ⟨1, _, rfl⟩
  obtain ⟨s, rest3, hrest⟩ := hhead
  have hnosub : ∀ e ∈
      Event.computeAmounts ext.amount_to_swap ext.min_amount ::
        Event.logInfo "START DELAY" ::
        (List.replicate ext.start_delay (Event.sleep 1) ++
          ((poll_loop ext fuel 0).1 ++ [Event.logInfo "BRIDGING"])),
      isSubmit e = false := by
    intro e he
    rcases List.mem_cons.mp he with rfl | he
    · rfl
    rcases List.mem_cons.mp he with rfl | he
    · rfl
    rcases List.mem_append.mp he with h | h
    · obtain ⟨-, rfl⟩ := List.mem_replicate.mp h
      rfl
    rcases List.mem_append.mp h with h | h
    · rcases poll_loop_mem ext fuel 0 e h with ⟨n, rfl⟩ | ⟨u, rfl⟩ | ⟨c, rfl⟩ <;>
        rfl
    · rw [List.mem_singleton] at h
      subst h
      rfl
  have hnols : ∀ e ∈
      Event.computeAmounts ext.amount_to_swap ext.min_amount ::
        Event.logInfo "START DELAY" ::
        (List.replicate ext.start_delay (Event.sleep 1) ++
          ((poll_loop ext fuel 0).1 ++ [Event.logInfo "BRIDGING"])),
      isLogSuccess e = false := by
    intro e he
    rcases List.mem_cons.mp he with rfl | he
    · rfl
    rcases List.mem_cons.mp he with rfl | he
    · rfl
    rcases List.mem_append.mp he with h | h
    · obtain ⟨-, rfl⟩ := List.mem_replicate.mp h
      rfl
    rcases List.mem_append.mp h with h | h
    · rcases poll_loop_mem ext fuel 0 e h with ⟨n, rfl⟩ | ⟨u, rfl⟩ | ⟨c, rfl⟩ <;>
        rfl
    · rw [List.mem_singleton] at h
      subst h
      rfl
  exact impl_step_order_build ext.amount_to_swap ext.min_amount
    (List.replicate ext.start_delay (Event.sleep 1))
    (poll_loop ext fuel 0).1 (bridge_request a ext)
    a.from_chain_name "LAYERZEROSCAN" s rest3 hrest true
    (poll_loop_done_check ext fuel 0 hflag) hnosub hnols

theorem claim_C6_amended_witness :
    impl_step_order (chain_to_chain sample_args sample_ext_ready 1).1 =
      true :=
  claim_C6_amended sample_args sample_ext_ready 1 rfl

/-- C4: each of the twelve two-letter mode codes resolves through
`mode_mapping` and the route table of `main` to a route whose source and
destination chains differ, whose chain-derived arguments all come from
the matching chain profile, and whose pool identifiers match the
selected token on both ends, up to the BSC special case: routes from BSC
carry USDT with a USDC destination pool, routes to BSC carry USDC with a
USDT destination pool. -/
theorem claim_C4 :
    mode_codes.all
      (fun c => ((route_for_mode c).map route_consistent).getD false) =
      true := by
  decide

/-- C5 counterexample: with no `--mode` argument, the embedded entry
point writes nothing to standard error (the message goes to standard
output via a plain `print`), so the claimed conjunction — error on
standard error, exit status 2, no network calls — is false for a
one-wallet configuration. -/
theorem claim_C5_counterexample :
    ¬ ((run_cli ["w"] none).stderr ≠ [] ∧
        (run_cli ["w"] none).exit_code = some 2 ∧
        network_calls (run_cli ["w"] none).events = 0) := by
  intro h
  exact h.1 rfl

/-- C5 amended: invoking the entry point with no `--mode` argument
prints the error message to standard output (not standard error), exits
with status 2, builds no wallet task and performs zero network calls. -/
theorem claim_C5_amended (wallets : List String) :
    (run_cli wallets none).stdout =
        ["Error: the --mode argument is required"] ∧
      (run_cli wallets none).stderr = [] ∧
      (run_cli wallets none).exit_code = some 2 ∧
      (run_cli wallets none).tasks = [] ∧
      network_calls (run_cli wallets none).events = 0 :=
  ⟨rfl, rfl, rfl, rfl, rfl⟩

/-- C8: any `--mode` value outside the twelve two-letter codes is
rejected by the argument parser with a usage error on standard error and
exit status 2, before any wallet task is built and before any network
call. -/
theorem claim_C8 (wallets : List String) (s : String)
    (h : mode_codes.contains s = false) :
    (run_cli wallets (some s)).tasks = [] ∧
      (run_cli wallets (some s)).exit_code = some 2 ∧
      (run_cli wallets (some s)).stderr ≠ [] ∧
      network_calls (run_cli wallets (some s)).events = 0 := by
  have h2 : s ∉ mode_codes := by simpa using h
  simp [run_cli, parse_args_mode, h2, network_calls, countP]

theorem claim_C8_witness :
    mode_codes.contains "xx" = false ∧
      ((run_cli ["w"] (some "xx")).tasks = [] ∧
        (run_cli ["w"] (some "xx")).exit_code = some 2 ∧
        (run_cli ["w"] (some "xx")).stderr ≠ [] ∧
        network_calls (run_cli ["w"] (some "xx")).events = 0) :=
  ⟨by decide, claim_C8 ["w"] "xx" (by decide)⟩

/-- Results already settled are preserved by the scheduler. -/
theorem gather_re_acc (pending : List (Nat × PyTask))
    (acc : List (Nat × Except String Unit)) :
    ∀ x ∈ acc, x ∈ gather_return_exceptions pending acc := by
  induction pending, acc using gather_return_exceptions.induct with
  | case1 acc =>
    intro x hx
    simpa [gather_return_exceptions] using hx
  | case2 i rest acc ih =>
    intro x hx
    rw [gather_return_exceptions]
    exact ih x (List.mem_append_left _ hx)
  | case3 i m t rest acc ih =>
    intro x hx
    rw [gather_return_exceptions]
    exact ih x (List.mem_append_left _ hx)
  | case4 i t rest acc ih =>
    intro x hx
    rw [gather_return_exceptions]
    exact ih x hx

/-- Every pending coroutine settles with its own terminal state: the
scheduler records, for index `i` running coroutine `t`, exactly the
outcome `runTask t` that `t` produces in isolation — a raise elsewhere
in the queue neither cancels it nor alters its result. -/
theorem gather_re_complete (pending : List (Nat × PyTask))
    (acc : List (Nat × Except String Unit)) :
    ∀ i t, (i, t) ∈ pending →
      (i, runTask t) ∈ gather_return_exceptions pending acc := by
  induction pending, acc using gather_return_exceptions.induct with
  | case1 acc =>
    intro i t h
    cases h
  | case2 j rest acc ih =>
    intro i t h
    rcases List.mem_cons.mp h with heq | h
    · obtain ⟨rfl, rfl⟩ := Prod.mk.injEq .. ▸ heq
      rw [gather_return_exceptions]
      exact gather_re_acc _ _ _
        (List.mem_append_right _ (List.mem_singleton.mpr rfl))
    · rw [gather_return_exceptions]
      exact ih i t h
  | case3 j m t0 rest acc ih =>
    intro i t h
    rcases List.mem_cons.mp h with heq | h
    · obtain ⟨rfl, rfl⟩ := Prod.mk.injEq .. ▸ heq
      rw [gather_return_exceptions]
      exact gather_re_acc _ _ _
        (List.mem_append_right _ (List.mem_singleton.mpr rfl))
    · rw [gather_return_exceptions]
      exact ih i t h
  | case4 j t0 rest acc ih =>
    intro i t h
    rcases List.mem_cons.mp h with heq | h
    · obtain ⟨rfl, rfl⟩ := Prod.mk.injEq .. ▸ heq
      rw [gather_return_exceptions]
      exact ih i t0 (List.mem_append_right _ (List.mem_singleton.mpr rfl))
    · rw [gather_return_exceptions]
      exact ih i t (List.mem_append_left _ h)

/-- The scheduler produces exactly one settled result per coroutine. -/
theorem gather_re_length (pending : List (Nat × PyTask))
    (acc : List (Nat × Except String Unit)) :
    (gather_return_exceptions pending acc).length =
      pending.length + acc.length := by
  induction pending, acc using gather_return_exceptions.induct with
  | case1 acc => simp [gather_return_exceptions]
  | case2 i rest acc ih =>
    rw [gather_return_exceptions]
    simp only [ih, List.length_append, List.length_cons, List.length_nil]
    omega
  | case3 i m t rest acc ih =>
    rw [gather_return_exceptions]
    simp only [ih, List.length_append, List.length_cons, List.length_nil]
    omega
  | case4 i t rest acc ih =>
    rw [gather_return_exceptions]
    simp only [ih, List.length_append, List.length_cons, List.length_nil]

/-- C3: for any list of wallet coroutines gathered with
`return_exceptions=True`, every coroutine reaches a terminal state,
each settles with its own isolated outcome (a raise is recorded in
place and neither cancels nor alters sibling results), and the finished
message is logged afterwards regardless of how many failed. -/
theorem claim_C3 (tasks : List PyTask) :
    ((main_gather tasks).1).length = tasks.length ∧
      (∀ i t, (i, t) ∈ tasks.enum →
        (i, runTask t) ∈ (main_gather tasks).1) ∧
      (main_gather tasks).2 = true := by
  refine ⟨?_, ?_, rfl⟩
  · show (gather_return_exceptions tasks.enum []).length = tasks.length
    rw [gather_re_length]
    simp
  · intro i t h
    exact gather_re_complete tasks.enum [] i t h

theorem claim_C3_witness :
    ((main_gather [[Step.work], [Step.work, Step.raiseErr "boom"],
        []]).1).length = 3 ∧
      (1, Except.error "boom") ∈
        (main_gather [[Step.work], [Step.work, Step.raiseErr "boom"],
          []]).1 ∧
      (0, Except.ok ()) ∈
        (main_gather [[Step.work], [Step.work, Step.raiseErr "boom"],
          []]).1 ∧
      (main_gather [[Step.work], [Step.work, Step.raiseErr "boom"],
        []]).2 = true :=
  ⟨(claim_C3 _).1,
   (claim_C3 _).2.1 1 [Step.work, Step.raiseErr "boom"] (by decide),
   (claim_C3 _).2.1 0 [Step.work] (by decide),
   (claim_C3 _).2.2⟩
